import Mathlib

/-!
Verification of `galaxy/importer/models.py` (collection manifest validation).

The Python code is shallowly embedded: dynamically typed Python values become
the inductive `PyVal`; raised exceptions become `Except Err`; the attrs-driven
construction of `BaseCollectionInfo` / `GalaxyCollectionInfo` becomes an
explicit sequential composition of the field validators in attrs execution
order (per field, in field declaration order; per field, validators in the
order the decorated functions appear in the class body), followed by the
`__attrs_post_init__` checks.

External collaborators of the core (the `semantic_version` library, the
database-backed registry lookups `models.Namespace` / `models.Collection` /
`models.CollectionVersion`, the SPDX vocabulary `spdx_licenses.get_spdx()`,
and the constants `NAME_REGEXP`, `TAG_REGEXP`, `MAX_TAGS_COUNT` which are not
under `src/`) are parameters of the embedding, gathered in `ValCtx`.
-/

/-- A dynamically typed Python value, as relevant to the manifest code. -/
inductive PyVal where
  | none : PyVal
  | str (s : String) : PyVal
  | int (n : Int) : PyVal
  | bool (b : Bool) : PyVal
  | list (xs : List PyVal) : PyVal
  | dict (kvs : List (PyVal × PyVal)) : PyVal

/-- Python truthiness (`bool(v)`). -/
def PyVal.truthy : PyVal → Bool
  | .none => false
  | .str s => ¬s.isEmpty
  | .int n => n ≠ 0
  | .bool b => b
  | .list xs => ¬xs.isEmpty
  | .dict kvs => ¬kvs.isEmpty

/-- Python `isinstance(v, str)`. -/
def PyVal.isStr : PyVal → Bool
  | .str _ => true
  | _ => false

mutual

/-- Python `repr(v)` for the values the error messages print. -/
def PyVal.pyRepr : PyVal → String
  | .none => "None"
  | .str s => "'" ++ s ++ "'"
  | .int n => toString n
  | .bool b => if b then "True" else "False"
  | .list xs => "[" ++ String.intercalate ", " (PyVal.pyReprList xs) ++ "]"
  | .dict kvs => "\x7b" ++ String.intercalate ", " (PyVal.pyReprPairs kvs) ++ "\x7d"

/-- Helper of `PyVal.pyRepr` over lists. -/
def PyVal.pyReprList : List PyVal → List String
  | [] => []
  | x :: xs => PyVal.pyRepr x :: PyVal.pyReprList xs

/-- Helper of `PyVal.pyRepr` over dict items. -/
def PyVal.pyReprPairs : List (PyVal × PyVal) → List String
  | [] => []
  | (k, v) :: rest => (PyVal.pyRepr k ++ ": " ++ PyVal.pyRepr v) :: PyVal.pyReprPairs rest

end

/-- Python `str(v)` (used by the `%s` formatting in the error messages). -/
def PyVal.pyStr : PyVal → String
  | .str s => s
  | v => v.pyRepr

mutual

/-- Python `==` on the embedded values (only like-typed comparisons occur). -/
def PyVal.beq : PyVal → PyVal → Bool
  | .none, .none => true
  | .str a, .str b => a == b
  | .int a, .int b => a == b
  | .bool a, .bool b => a == b
  | .list xs, .list ys => PyVal.beqList xs ys
  | .dict xs, .dict ys => PyVal.beqPairs xs ys
  | _, _ => false

/-- Helper of `PyVal.beq` over lists. -/
def PyVal.beqList : List PyVal → List PyVal → Bool
  | [], [] => true
  | x :: xs, y :: ys => PyVal.beq x y && PyVal.beqList xs ys
  | _, _ => false

/-- Helper of `PyVal.beq` over dict items. -/
def PyVal.beqPairs : List (PyVal × PyVal) → List (PyVal × PyVal) → Bool
  | [], [] => true
  | (k, v) :: xs, (k2, v2) :: ys => PyVal.beq k k2 && PyVal.beq v v2 && PyVal.beqPairs xs ys
  | _, _ => false

end

instance : BEq PyVal := ⟨PyVal.beq⟩

/-- The accumulator pass of `pySplitDot`, over the characters of the key. -/
def splitDotAux : List Char → List Char → List String
  | [], acc => [String.mk acc.reverse]
  | c :: rest, acc =>
      if c == '.' then String.mk acc.reverse :: splitDotAux rest []
      else splitDotAux rest (c :: acc)

/-- Python `s.split('.')`: the segments between the dots, with empty segments
kept (so a string with no dot gives one part, and a leading or trailing dot
gives an empty part). -/
def pySplitDot (s : String) : List String :=
  splitDotAux s.data []

/-- The digit-accumulator pass of `pyToNat`. -/
def decDigitsAux : List Char → Nat → Option Nat
  | [], acc => Option.some acc
  | c :: rest, acc =>
      if c.isDigit then decDigitsAux rest (acc * 10 + (c.toNat - '0'.toNat))
      else Option.none

/-- Decimal parsing of a non-empty all-digit string (`int(s)` as the
`semantic_version` grammar uses it on version components). -/
def pyToNat (s : String) : Option Nat :=
  match s.data with
  | [] => Option.none
  | l => decDigitsAux l 0

/-- String prefix test (over the character lists, so that proofs can
evaluate it). -/
def strStartsWith (s pre : String) : Bool :=
  pre.data.isPrefixOf s.data

/-- Dropping the first `n` characters of a string (over the character lists,
so that proofs can evaluate it). -/
def strDrop (s : String) (n : Nat) : String :=
  String.mk (s.data.drop n)

/-- A raised Python exception, by class and message. -/
inductive Err where
  | valueError (msg : String) : Err
  | typeError (msg : String) : Err
  | attributeError (msg : String) : Err
deriving DecidableEq, Repr

/-- The structured validation failures of the code are exactly the
`ValueError`s raised through `BaseCollectionInfo.value_error`, which prefixes
every message with "Invalid collection metadata. ".  Unpack errors, `TypeError`
and `AttributeError` are unstructured crashes. -/
def Err.isValidationFailure : Err → Bool
  | .valueError msg => strStartsWith msg "Invalid collection metadata. "
  | _ => false

/-- The error raised by `BaseCollectionInfo.value_error(msg)`. -/
def invalidMeta (msg : String) : Err :=
  Err.valueError ("Invalid collection metadata. " ++ msg)

/-- `BaseCollectionInfo.value_error` — raise a `ValueError` with the standard
prefix. -/
def value_error {α : Type} (msg : String) : Except Err α :=
  Except.error (invalidMeta msg)

/-- Sequencing of two Python statements where the first may raise. -/
def seqE {α : Type} (a : Except Err Unit) (b : Except Err α) : Except Err α :=
  match a with
  | Except.ok _ => b
  | Except.error e => Except.error e

/-- One entry of the SPDX vocabulary returned by `spdx_licenses.get_spdx()`:
`truthy` is the Python truthiness of the stored entry value and
`deprecatedTruthy` the truthiness of `entry.get('deprecated', None)`. -/
structure SpdxEntry where
  truthy : Bool
  deprecatedTruthy : Bool
deriving DecidableEq

/-- The registry collaborator: `models.Namespace.objects.get(name=..)` (a
primary key, or `DoesNotExist`), `models.Collection.objects.get(namespace=pk,
name=..)` (a collection id, or `DoesNotExist`), and the version strings of
`models.CollectionVersion.objects.filter(collection=col)`. -/
structure Registry where
  nsGet : String → Option Nat
  colGet : Nat → String → Option Nat
  colVersions : Nat → List String

/-- The `semantic_version` library as used by the code: `validate` backs
`_check_version_format`; `specValid s` holds when `Spec(s)` constructs without
`ValueError`; `matchResult s v` is `Spec(s).match(Version(v))` — it raises the
`ValueError` of `Version(v)` when `v` does not parse, and may raise `TypeError`
from `match` (the `Spec('~1')` quirk noted in the source). -/
structure SemverOracle where
  validate : String → Bool
  specValid : String → Bool
  matchResult : String → String → Except Err Bool

/-- The collaborators and configured constants the validation pipeline reads:
`NAME_REGEXP`, `TAG_REGEXP` and `MAX_TAGS_COUNT` from `galaxy.constants`, the
SPDX vocabulary, the semantic-version library and the registry. -/
structure ValCtx where
  NAME_REGEXP : String → Bool
  TAG_REGEXP : String → Bool
  MAX_TAGS_COUNT : Nat
  spdx : List (String × SpdxEntry)
  oracle : SemverOracle
  registry : Registry

/-- The attr fields of `BaseCollectionInfo` (also of `GalaxyCollectionInfo`,
which adds no fields), in declaration order, with the attrs defaults.  The
record holds the values as assigned by the generated `__init__` before
validation.  `namespace_` embeds the Python field `namespace` (a Lean
keyword). -/
structure CollectionInfo where
  namespace_ : PyVal := PyVal.none
  name : PyVal := PyVal.none
  version : PyVal := PyVal.none
  license : PyVal := PyVal.list []
  description : PyVal := PyVal.none
  repository : PyVal := PyVal.none
  documentation : PyVal := PyVal.none
  homepage : PyVal := PyVal.none
  issues : PyVal := PyVal.none
  authors : PyVal := PyVal.list []
  tags : PyVal := PyVal.list []
  license_file : PyVal := PyVal.none
  readme : PyVal := PyVal.none
  dependencies : PyVal := PyVal.dict []

/-- `convert_none_to_empty_dict` — the attrs converter on `dependencies`. -/
def convert_none_to_empty_dict (val : PyVal) : PyVal :=
  match val with
  | PyVal.none => PyVal.dict []
  | _ => val

/-- `BaseCollectionInfo._check_required` — the validator on `namespace`,
`name` and `version`. -/
def BaseCollectionInfo._check_required (attrName : String) (value : PyVal) :
    Except Err Unit :=
  if ¬value.truthy then value_error ("'" ++ attrName ++ "' is required")
  else Except.ok ()

/-- `BaseCollectionInfo._check_version_format`.  `semantic_version.validate`
matches its regular expression against the value, so a non-string raises
`TypeError`. -/
def BaseCollectionInfo._check_version_format (O : SemverOracle) (value : PyVal) :
    Except Err Unit :=
  match value with
  | PyVal.str s =>
      if ¬O.validate s then
        value_error ("Expecting 'version' to be in semantic version format, " ++
          "instead found '" ++ s ++ "'.")
      else Except.ok ()
  | _ => Except.error (Err.typeError "expected string or bytes-like object")

/-- The item loop of `BaseCollectionInfo._check_list_of_str`. -/
def BaseCollectionInfo.listOfStrLoop (attrName : String) :
    List PyVal → Except Err Unit
  | [] => Except.ok ()
  | item :: rest =>
      if ¬item.isStr then
        value_error ("Expecting '" ++ attrName ++ "' to be a list of strings")
      else BaseCollectionInfo.listOfStrLoop attrName rest

/-- `BaseCollectionInfo._check_list_of_str` — the validator on `authors`,
`tags` and `license`. -/
def BaseCollectionInfo._check_list_of_str (attrName : String) (value : PyVal) :
    Except Err Unit :=
  match value with
  | PyVal.list xs => BaseCollectionInfo.listOfStrLoop attrName xs
  | _ => value_error ("Expecting '" ++ attrName ++ "' to be a list of strings")

/-- `BaseCollectionInfo._is_valid_license_id`.  `valid_license_ids.get` finds
an entry only for string ids present in the vocabulary; the deprecated flag is
read behind the short-circuiting `valid and valid.get('deprecated', None)`. -/
def BaseCollectionInfo._is_valid_license_id (spdx : List (String × SpdxEntry))
    (license_id : PyVal) : Bool :=
  match license_id with
  | PyVal.none => false
  | PyVal.str s =>
      match (spdx.find? (fun p => p.1 == s)).map (fun p => p.2) with
      | Option.none => false
      | Option.some valid => if valid.truthy && valid.deprecatedTruthy then false else true
  | _ => false

/-- The string content of a license list item for `','.join(invalid_licenses)`
(by the time `_check_licenses` runs, `_check_list_of_str` has already raised on
any non-string item, so the default branch is unreachable). -/
def pyJoinItem : PyVal → String
  | PyVal.str s => s
  | _ => ""

/-- `BaseCollectionInfo._check_licenses` — the second validator on `license`
(non-lists have already been rejected by `_check_list_of_str`). -/
def BaseCollectionInfo._check_licenses (spdx : List (String × SpdxEntry))
    (value : PyVal) : Except Err Unit :=
  match value with
  | PyVal.list xs =>
      let invalid := xs.filter (fun id => ¬BaseCollectionInfo._is_valid_license_id spdx id)
      if ¬invalid.isEmpty then
        value_error ("Expecting 'license' to be a list of valid SPDX license " ++
          "identifiers, instead found invalid license identifiers: '" ++
          String.intercalate "," (invalid.map pyJoinItem) ++
          "' in 'license' value " ++ PyVal.pyStr value ++
          ". For more info, visit https://spdx.org")
      else Except.ok ()
  | _ => Except.error (Err.typeError "object is not iterable")

/-- The item loop of `BaseCollectionInfo._check_dependencies_type`. -/
def BaseCollectionInfo.depTypeLoop : List (PyVal × PyVal) → Except Err Unit
  | [] => Except.ok ()
  | (k, v) :: rest =>
      if ¬k.isStr || ¬v.isStr then
        value_error "Expecting dict key and value to be strings"
      else BaseCollectionInfo.depTypeLoop rest

/-- `BaseCollectionInfo._check_dependencies_type` — the validator on
`dependencies` (the `or value is None` disjunct of the source is subsumed by
the non-dict branch). -/
def BaseCollectionInfo._check_dependencies_type (value : PyVal) :
    Except Err Unit :=
  match value with
  | PyVal.dict kvs => BaseCollectionInfo.depTypeLoop kvs
  | _ => value_error "Expecting 'dependencies' to be a dict"

/-- The tag loop of `BaseCollectionInfo._check_tags` (`re.match` on a
non-string raises `TypeError`, though `_check_list_of_str` runs first). -/
def BaseCollectionInfo.tagLoop (TAG : String → Bool) : List PyVal → Except Err Unit
  | [] => Except.ok ()
  | tag :: rest =>
      match tag with
      | PyVal.str s =>
          if ¬TAG s then value_error ("'tag' has invalid format: " ++ s)
          else BaseCollectionInfo.tagLoop TAG rest
      | _ => Except.error (Err.typeError "expected string or bytes-like object")

/-- `BaseCollectionInfo._check_tags` — the second validator on `tags`. -/
def BaseCollectionInfo._check_tags (TAG : String → Bool) (value : PyVal) :
    Except Err Unit :=
  match value with
  | PyVal.list xs => BaseCollectionInfo.tagLoop TAG xs
  | _ => Except.error (Err.typeError "object is not iterable")

/-- `BaseCollectionInfo._check_name` — the validator on `namespace` and
`name`; `re.match(NAME_REGEXP, value)` raises `TypeError` on a non-string. -/
def BaseCollectionInfo._check_name (NAME : String → Bool) (attrName : String)
    (value : PyVal) : Except Err Unit :=
  match value with
  | PyVal.str s =>
      if ¬NAME s then
        value_error ("'" ++ attrName ++ "' has invalid format: " ++ s)
      else Except.ok ()
  | _ => Except.error (Err.typeError "expected string or bytes-like object")

/-- The `attr.validators.optional(attr.validators.instance_of(str))` validator
on `license_file` and `readme`; `instance_of` raises `TypeError`. -/
def checkOptionalInstanceOfStr (attrName : String) (value : PyVal) :
    Except Err Unit :=
  match value with
  | PyVal.none => Except.ok ()
  | PyVal.str _ => Except.ok ()
  | _ => Except.error (Err.typeError ("'" ++ attrName ++ "' must be <class 'str'>"))

/-- `BaseCollectionInfo._check_license_or_license_file` — called from
`__attrs_post_init__`. -/
def BaseCollectionInfo._check_license_or_license_file (license_ids license_file : PyVal) :
    Except Err Unit :=
  if license_ids.truthy || license_file.truthy then Except.ok ()
  else
    value_error ("Valid values for 'license' or 'license_file' are required. " ++
      "But 'license' (" ++ license_ids.pyStr ++ ") and 'license_file' (" ++
      license_file.pyStr ++ ") were invalid.")

/-- The attrs-generated validation of the `BaseCollectionInfo` fields, in
attrs execution order: fields in declaration order, and per field the
decorated validators in the order they appear in the class body
(`_check_required` before `_check_name` on `namespace`/`name`;
`_check_required` before `_check_version_format` on `version`;
`_check_list_of_str` before `_check_licenses` on `license` and before
`_check_tags` on `tags`).  `deps` is the already-converted value of
`dependencies` (its converter runs before its validator). -/
def BaseCollectionInfo.runFieldValidators (C : ValCtx) (f : CollectionInfo)
    (deps : PyVal) : Except Err Unit :=
  seqE (BaseCollectionInfo._check_required "namespace" f.namespace_)
  (seqE (BaseCollectionInfo._check_name C.NAME_REGEXP "namespace" f.namespace_)
  (seqE (BaseCollectionInfo._check_required "name" f.name)
  (seqE (BaseCollectionInfo._check_name C.NAME_REGEXP "name" f.name)
  (seqE (BaseCollectionInfo._check_required "version" f.version)
  (seqE (BaseCollectionInfo._check_version_format C.oracle f.version)
  (seqE (BaseCollectionInfo._check_list_of_str "license" f.license)
  (seqE (BaseCollectionInfo._check_licenses C.spdx f.license)
  (seqE (BaseCollectionInfo._check_list_of_str "authors" f.authors)
  (seqE (BaseCollectionInfo._check_list_of_str "tags" f.tags)
  (seqE (BaseCollectionInfo._check_tags C.TAG_REGEXP f.tags)
  (seqE (checkOptionalInstanceOfStr "license_file" f.license_file)
  (seqE (checkOptionalInstanceOfStr "readme" f.readme)
  (BaseCollectionInfo._check_dependencies_type deps)))))))))))))

/-- Construction of `BaseCollectionInfo`: converter, field validators, then
`BaseCollectionInfo.__attrs_post_init__`. -/
def BaseCollectionInfo.init (C : ValCtx) (f : CollectionInfo) :
    Except Err CollectionInfo :=
  let deps := convert_none_to_empty_dict f.dependencies
  seqE (BaseCollectionInfo.runFieldValidators C f deps)
  (seqE (BaseCollectionInfo._check_license_or_license_file f.license f.license_file)
  (Except.ok { f with dependencies := deps }))

/-- Python `getattr(self, name)` on the manifest fields (the galaxy post-init
checks only pass the names below). -/
def CollectionInfo.getattr (f : CollectionInfo) (name : String) : PyVal :=
  if name == "namespace" then f.namespace_
  else if name == "name" then f.name
  else if name == "version" then f.version
  else if name == "license" then f.license
  else if name == "description" then f.description
  else if name == "repository" then f.repository
  else if name == "documentation" then f.documentation
  else if name == "homepage" then f.homepage
  else if name == "issues" then f.issues
  else if name == "authors" then f.authors
  else if name == "tags" then f.tags
  else if name == "license_file" then f.license_file
  else if name == "readme" then f.readme
  else if name == "dependencies" then f.dependencies
  else PyVal.none

/-- `GalaxyCollectionInfo._check_required` — the galaxy-specific presence
check used in the galaxy `__attrs_post_init__` (a distinct method from the
field validator of the same name, which attrs keeps by function object). -/
def GalaxyCollectionInfo._check_required (f : CollectionInfo) (fieldName : String) :
    Except Err Unit :=
  if ¬(f.getattr fieldName).truthy then
    value_error ("'" ++ fieldName ++ "' is required by galaxy")
  else Except.ok ()

/-- `GalaxyCollectionInfo._check_non_null_str`. -/
def GalaxyCollectionInfo._check_non_null_str (f : CollectionInfo) (fieldName : String) :
    Except Err Unit :=
  match f.getattr fieldName with
  | PyVal.none => Except.ok ()
  | PyVal.str _ => Except.ok ()
  | _ => value_error ("'" ++ fieldName ++ "' must be a string")

/-- The inner version loop of `GalaxyCollectionInfo._check_dependencies`:
`for v in versions: try: if spec.match(Version(v)): return / except TypeError:
pass`.  Returns `true` when some version matched (the Python `return` fires);
only a raised `TypeError` is swallowed, any other exception propagates. -/
def GalaxyCollectionInfo.versionLoop (O : SemverOracle) (specStr : String) :
    List String → Except Err Bool
  | [] => Except.ok false
  | v :: rest =>
      match O.matchResult specStr v with
      | Except.ok true => Except.ok true
      | Except.ok false => GalaxyCollectionInfo.versionLoop O specStr rest
      | Except.error (Err.typeError _) => GalaxyCollectionInfo.versionLoop O specStr rest
      | Except.error e => Except.error e

/-- Sequencing of the version loop with the statement after it: when the loop
returned (result `true`) the following statement does not run. -/
def seqEB (a : Except Err Bool) (b : Except Err Bool) : Except Err Bool :=
  match a with
  | Except.ok true => Except.ok true
  | Except.ok false => b
  | Except.error e => Except.error e

/-- One iteration of the dependency loop of
`GalaxyCollectionInfo._check_dependencies`: key split (an unpacking
`ValueError` when the split does not yield exactly two parts), self-reference,
namespace lookup, collection lookup, range parse, and the version loop.  The
Boolean result is `true` exactly when the Python `return` statement executed —
which exits the whole `_check_dependencies` method, not just this entry. -/
def GalaxyCollectionInfo.depEntryCheck (C : ValCtx) (f : CollectionInfo)
    (dep_col ver_spec : PyVal) : Except Err Bool :=
  match dep_col with
  | PyVal.str depStr =>
      match pySplitDot depStr with
      | [ns_name, name] =>
          if PyVal.beq (PyVal.str ns_name) f.namespace_ &&
             PyVal.beq (PyVal.str name) f.name then
            value_error "Cannot have self dependency"
          else
            match C.registry.nsGet ns_name with
            | Option.none =>
                value_error ("Dependency namespace not in galaxy: " ++ depStr)
            | Option.some nsPk =>
                match C.registry.colGet nsPk name with
                | Option.none =>
                    value_error ("Dependency collection not in galaxy: " ++ depStr)
                | Option.some colId =>
                    match ver_spec with
                    | PyVal.str specStr =>
                        if ¬C.oracle.specValid specStr then
                          value_error ("Dependency version spec range " ++
                            "invalid: " ++ depStr ++ " " ++ specStr)
                        else
                          seqEB (GalaxyCollectionInfo.versionLoop C.oracle specStr
                              (C.registry.colVersions colId))
                            (value_error ("Dependency found in galaxy but no " ++
                              "matching version found: " ++ depStr ++ " " ++ specStr))
                    | _ => Except.error (Err.typeError
                        "invalid requirement specification")
      | parts =>
          if parts.length < 2 then
            Except.error (Err.valueError
              ("not enough values to unpack (expected 2, got " ++
                toString parts.length ++ ")"))
          else
            Except.error (Err.valueError "too many values to unpack (expected 2)")
  | _ => Except.error (Err.attributeError "object has no attribute 'split'")

/-- The entry loop of `GalaxyCollectionInfo._check_dependencies` over
`self.dependencies.items()`.  An entry whose version loop matched executes
`return`, ending the whole check; otherwise that entry raised, so the loop
can only ever complete on an empty mapping. -/
def GalaxyCollectionInfo.depLoop (C : ValCtx) (f : CollectionInfo) :
    List (PyVal × PyVal) → Except Err Unit
  | [] => Except.ok ()
  | (k, v) :: rest =>
      match GalaxyCollectionInfo.depEntryCheck C f k v with
      | Except.ok true => Except.ok ()
      | Except.ok false => GalaxyCollectionInfo.depLoop C f rest
      | Except.error e => Except.error e

/-- `GalaxyCollectionInfo._check_dependencies` (`deps` is the converted
`self.dependencies`; its validator already rejected non-dicts). -/
def GalaxyCollectionInfo._check_dependencies (C : ValCtx) (f : CollectionInfo)
    (deps : PyVal) : Except Err Unit :=
  match deps with
  | PyVal.dict kvs => GalaxyCollectionInfo.depLoop C f kvs
  | _ => Except.error (Err.attributeError "object has no attribute 'items'")

/-- `GalaxyCollectionInfo._check_tags_count` (`len()` of a non-list,
non-string value would raise `TypeError`, but `_check_list_of_str` has already
rejected those).  Reads `getattr(self, 'tags')`. -/
def GalaxyCollectionInfo._check_tags_count (C : ValCtx) (f : CollectionInfo) :
    Except Err Unit :=
  match f.getattr "tags" with
  | PyVal.none => Except.ok ()
  | PyVal.list xs =>
      if xs.length > C.MAX_TAGS_COUNT then
        value_error ("Expecting no more than " ++ toString C.MAX_TAGS_COUNT ++
          " tags in metadata")
      else Except.ok ()
  | PyVal.str s =>
      if s.length > C.MAX_TAGS_COUNT then
        value_error ("Expecting no more than " ++ toString C.MAX_TAGS_COUNT ++
          " tags in metadata")
      else Except.ok ()
  | _ => Except.error (Err.typeError "object has no len()")

/-- Construction of `GalaxyCollectionInfo`: converter, the inherited field
validators, then the overriding galaxy `__attrs_post_init__` (which first
calls the base post-init). -/
def GalaxyCollectionInfo.init (C : ValCtx) (f : CollectionInfo) :
    Except Err CollectionInfo :=
  let deps := convert_none_to_empty_dict f.dependencies
  seqE (BaseCollectionInfo.runFieldValidators C f deps)
  (seqE (BaseCollectionInfo._check_license_or_license_file f.license f.license_file)
  (seqE (GalaxyCollectionInfo._check_required f "readme")
  (seqE (GalaxyCollectionInfo._check_required f "authors")
  (seqE (GalaxyCollectionInfo._check_dependencies C f deps)
  (seqE (GalaxyCollectionInfo._check_tags_count C f)
  (seqE (GalaxyCollectionInfo._check_non_null_str f "description")
  (seqE (GalaxyCollectionInfo._check_non_null_str f "repository")
  (seqE (GalaxyCollectionInfo._check_non_null_str f "documentation")
  (seqE (GalaxyCollectionInfo._check_non_null_str f "homepage")
  (seqE (GalaxyCollectionInfo._check_non_null_str f "issues")
  (Except.ok { f with dependencies := deps })))))))))))

/-- Setting one keyword argument of `GalaxyCollectionInfo(**col_info)` onto
the field record; an unknown key raises the `TypeError` of an unexpected
keyword argument. -/
def setKwarg (f : CollectionInfo) (key : String) (v : PyVal) :
    Except Err CollectionInfo :=
  if key == "namespace" then Except.ok { f with namespace_ := v }
  else if key == "name" then Except.ok { f with name := v }
  else if key == "version" then Except.ok { f with version := v }
  else if key == "license" then Except.ok { f with license := v }
  else if key == "description" then Except.ok { f with description := v }
  else if key == "repository" then Except.ok { f with repository := v }
  else if key == "documentation" then Except.ok { f with documentation := v }
  else if key == "homepage" then Except.ok { f with homepage := v }
  else if key == "issues" then Except.ok { f with issues := v }
  else if key == "authors" then Except.ok { f with authors := v }
  else if key == "tags" then Except.ok { f with tags := v }
  else if key == "license_file" then Except.ok { f with license_file := v }
  else if key == "readme" then Except.ok { f with readme := v }
  else if key == "dependencies" then Except.ok { f with dependencies := v }
  else Except.error (Err.typeError
    ("__init__() got an unexpected keyword argument '" ++ key ++ "'"))

/-- Folding the keyword items of `GalaxyCollectionInfo(**col_info)` over the
attrs defaults; a non-string key raises `TypeError`. -/
def kwargsLoop (f : CollectionInfo) : List (PyVal × PyVal) →
    Except Err CollectionInfo
  | [] => Except.ok f
  | (k, v) :: rest =>
      match k with
      | PyVal.str key =>
          match setKwarg f key v with
          | Except.ok f2 => kwargsLoop f2 rest
          | Except.error e => Except.error e
      | _ => Except.error (Err.typeError "keywords must be strings")

/-- `GalaxyCollectionInfo(**col_info)` argument expansion: `col_info` must be
a mapping (it is `None` when the document had no `collection_info` key, and
`**None` raises `TypeError`). -/
def kwargsToFields (col_info : PyVal) : Except Err CollectionInfo :=
  match col_info with
  | PyVal.dict kvs => kwargsLoop {} kvs
  | PyVal.none => Except.error (Err.typeError
      "argument after ** must be a mapping, not NoneType")
  | _ => Except.error (Err.typeError "argument after ** must be a mapping")

/-- The validated envelope produced by `CollectionArtifactManifest`:
`collection_info`, `format` (attrs default `1`) and `file_manifest_file`
(attrs default `{}`); the envelope class itself declares no validators. -/
structure CollectionArtifactManifest where
  collection_info : CollectionInfo
  format : PyVal := PyVal.int 1
  file_manifest_file : PyVal := PyVal.dict []

/-- The keyword expansion of `cls(**meta)` over the remaining envelope keys
(after `collection_info` was popped and re-set to the constructed object). -/
def envelopeKwargsLoop (ci : CollectionInfo) (e : CollectionArtifactManifest) :
    List (PyVal × PyVal) → Except Err CollectionArtifactManifest
  | [] => Except.ok e
  | (k, v) :: rest =>
      match k with
      | PyVal.str key =>
          if key == "format" then
            envelopeKwargsLoop ci { e with format := v } rest
          else if key == "file_manifest_file" then
            envelopeKwargsLoop ci { e with file_manifest_file := v } rest
          else
            Except.error (Err.typeError
              ("__init__() got an unexpected keyword argument '" ++ key ++ "'"))
      | _ => Except.error (Err.typeError "keywords must be strings")

/-- `CollectionArtifactManifest.parse`, from the point where `json.loads` has
produced the document value `meta`: pop `collection_info` (defaulting to
`None`), construct `GalaxyCollectionInfo(**col_info)`, then `cls(**meta)`.
A non-dict document has no `pop` and raises `AttributeError` (the JSON
decoding itself belongs to the standard library and is outside this model). -/
def CollectionArtifactManifest.parse (C : ValCtx) (meta : PyVal) :
    Except Err CollectionArtifactManifest :=
  match meta with
  | PyVal.dict kvs =>
      let col_info :=
        match kvs.find? (fun p => p.1 == PyVal.str "collection_info") with
        | Option.some p => p.2
        | Option.none => PyVal.none
      let rest := kvs.filter (fun p => ¬(p.1 == PyVal.str "collection_info"))
      match kwargsToFields col_info with
      | Except.error e => Except.error e
      | Except.ok f0 =>
          match GalaxyCollectionInfo.init C f0 with
          | Except.error e => Except.error e
          | Except.ok ci => envelopeKwargsLoop ci { collection_info := ci } rest
  | _ => Except.error (Err.attributeError "object has no attribute 'pop'")

/-- Modelled from the spec: `galaxy.constants.NAME_REGEXP` is not under
`src/`; the spec says `namespace` and `name` "must match a fixed naming
pattern (alphanumeric + underscore, policy-defined regular expression)". -/
def nameMatches (s : String) : Bool :=
  ¬s.isEmpty && s.toList.all (fun c => c.isAlphanum || c == '_')

/-- Modelled from the spec: `galaxy.constants.TAG_REGEXP` is not under
`src/`; the spec says each tag "must match a tag naming pattern". -/
def tagMatches (s : String) : Bool :=
  ¬s.isEmpty && s.toList.all (fun c => c.isAlphanum || c == '_')

/-- Parsing of a plain `major.minor.patch` semantic version, as the
`semantic_version` library parses the concrete version strings used below
(none of them carry prerelease or build parts; "1.0" has no patch part and
does not parse). -/
def parseSemverTriple (s : String) : Option (Nat × Nat × Nat) :=
  match pySplitDot s with
  | [a, b, c] =>
      match pyToNat a, pyToNat b, pyToNat c with
      | Option.some x, Option.some y, Option.some z => Option.some (x, y, z)
      | _, _, _ => Option.none
  | _ => Option.none

/-- Lexicographic order on version triples. -/
def tripleLe (a b : Nat × Nat × Nat) : Bool :=
  a.1 < b.1 || (a.1 == b.1 && (a.2.1 < b.2.1 || (a.2.1 == b.2.1 && a.2.2 ≤ b.2.2)))

/-- A concrete instance of the `semantic_version` oracle, mirroring the
library on the inputs exercised below: `validate` accepts full
`major.minor.patch` strings; `Spec` accepts `>=X.Y.Z` ranges and the partial
range `~1`; `Spec(s).match(Version(v))` first raises the library's
`ValueError` when `v` does not parse, and raises `TypeError` for the partial
spec `~1` (the quirk quoted in the source comment). -/
def semverLib : SemverOracle where
  validate := fun s => (parseSemverTriple s).isSome
  specValid := fun s =>
    s == "~1" || (strStartsWith s ">=" && (parseSemverTriple (strDrop s 2)).isSome)
  matchResult := fun specStr v =>
    match parseSemverTriple v with
    | Option.none =>
        Except.error (Err.valueError ("Invalid version string: '" ++ v ++ "'"))
    | Option.some ver =>
        if specStr == "~1" then
          Except.error (Err.typeError
            "'<' not supported between instances of 'int' and 'NoneType'")
        else if strStartsWith specStr ">=" then
          match parseSemverTriple (strDrop specStr 2) with
          | Option.some lo => Except.ok (tripleLe lo ver)
          | Option.none =>
              Except.error (Err.valueError
                ("Invalid version string: '" ++ strDrop specStr 2 ++ "'"))
        else
          Except.error (Err.valueError ("Invalid specification: '" ++ specStr ++ "'"))

/-- A registry with no namespaces at all. -/
def regEmpty : Registry where
  nsGet := fun _ => Option.none
  colGet := fun _ _ => Option.none
  colVersions := fun _ => []

/-- A registry holding the collection `depns.depcol` with the published
version set `vers`. -/
def regWith (vers : List String) : Registry where
  nsGet := fun n => if n == "depns" then Option.some 1 else Option.none
  colGet := fun pk n =>
    if pk == 1 && n == "depcol" then Option.some 10 else Option.none
  colVersions := fun c => if c == 10 then vers else []

/-- A vocabulary holding the single valid, non-deprecated identifier MIT. -/
def vocabMIT : List (String × SpdxEntry) := [("MIT", ⟨true, false⟩)]

/-- A validation context over the given tag ceiling, vocabulary and
registry. -/
def mkCtx (maxTags : Nat) (spdx : List (String × SpdxEntry)) (reg : Registry) :
    ValCtx where
  NAME_REGEXP := nameMatches
  TAG_REGEXP := tagMatches
  MAX_TAGS_COUNT := maxTags
  spdx := spdx
  oracle := semverLib
  registry := reg

/-- The default context: tag ceiling 20 (the galaxy constant), the MIT
vocabulary, the empty registry. -/
def ctx0 : ValCtx := mkCtx 20 vocabMIT regEmpty

/-- A manifest that satisfies every rule: empty license list with a
license file, empty dependency mapping, no tags. -/
def goodFields : CollectionInfo where
  namespace_ := PyVal.str "acme"
  name := PyVal.str "widgets"
  version := PyVal.str "1.0.0"
  license := PyVal.list []
  authors := PyVal.list [PyVal.str "alice"]
  tags := PyVal.list []
  license_file := PyVal.str "LICENSE"
  readme := PyVal.str "README.md"
  dependencies := PyVal.dict []

/-- A vocabulary with no identifiers at all. -/
def vocabNone : List (String × SpdxEntry) := []

/-- A validation context whose vocabulary is empty. -/
def ctxNoVocab : ValCtx := mkCtx 20 vocabNone regEmpty

/-- A context whose registry publishes `depns.depcol` at version 2.1.0. -/
def ctx1 : ValCtx := mkCtx 20 vocabMIT (regWith ["2.1.0"])

/-- Dependencies with a satisfiable entry first and a self-dependency
second. -/
def f1 : CollectionInfo :=
  { goodFields with dependencies := PyVal.dict [
      (PyVal.str "depns.depcol", PyVal.str ">=2.0.0"),
       (PyVal.str "acme.widgets", PyVal.str ">=1.0.0")] }

/-- The same two dependency entries in the opposite order. -/
def f1rev : CollectionInfo :=
  { goodFields with dependencies := PyVal.dict [
      (PyVal.str "acme.widgets", PyVal.str ">=1.0.0"),
       (PyVal.str "depns.depcol", PyVal.str ">=2.0.0")] }

/-- A manifest whose namespace is the integer 5 (truthy but not a string). -/
def fNsInt : CollectionInfo := { goodFields with namespace_ := PyVal.int 5 }

/-- A manifest whose single dependency key contains no dot. -/
def fNoDotKey : CollectionInfo :=
  { goodFields with dependencies := PyVal.dict [
      (PyVal.str "nodots", PyVal.str ">=1.0.0")] }

/-- An envelope document that lacks the `collection_info` key. -/
def docNoColInfo : PyVal := PyVal.dict [(PyVal.str "format", PyVal.int 1)]

/-- The empty envelope document (also lacks `collection_info`). -/
def docEmpty : PyVal := PyVal.dict []

/-- A manifest with an unknown license identifier and a license file. -/
def fBadLicenseWithFile : CollectionInfo :=
  { goodFields with license := PyVal.list [PyVal.str "FakeLicense"] }

/-- A second manifest with an unknown license identifier and a license
file. -/
def fBadLicenseWithFile2 : CollectionInfo :=
  { goodFields with license := PyVal.list [PyVal.str "NotSPDX"] }

/-- A manifest whose single dependency key contains no dot (second copy for
the dependency-key claim). -/
def fPlainDep : CollectionInfo :=
  { goodFields with dependencies := PyVal.dict [
      (PyVal.str "plaindep", PyVal.str ">=1.0.0")] }

/-- A manifest whose single dependency key contains two dots. -/
def fTwoDotDep : CollectionInfo :=
  { goodFields with dependencies := PyVal.dict [
      (PyVal.str "a.b.c", PyVal.str ">=1.0.0")] }

/-- A manifest whose single dependency key has an empty namespace part. -/
def fEmptyNsDep : CollectionInfo :=
  { goodFields with dependencies := PyVal.dict [
      (PyVal.str ".widgets", PyVal.str ">=1.0.0")] }

/-- A manifest whose namespace fails the naming pattern while its version is
missing. -/
def fC6 : CollectionInfo :=
  { goodFields with namespace_ := PyVal.str "foo bar", version := PyVal.none }

/-- A manifest that is valid except for its missing version. -/
def fC6w : CollectionInfo := { goodFields with version := PyVal.none }

/-- A context whose registry publishes a malformed version record before a
satisfying one. -/
def ctx7 : ValCtx := mkCtx 20 vocabMIT (regWith ["banana", "2.1.0"])

/-- A context whose registry publishes one well-formed version. -/
def ctx7a : ValCtx := mkCtx 20 vocabMIT (regWith ["1.2.0"])

/-- A context whose registry publishes only a malformed version record. -/
def ctx7b : ValCtx := mkCtx 20 vocabMIT (regWith ["banana"])

/-- A manifest depending on `depns.depcol` at `>=2.0.0`. -/
def f7 : CollectionInfo :=
  { goodFields with dependencies := PyVal.dict [
      (PyVal.str "depns.depcol", PyVal.str ">=2.0.0")] }

/-- A manifest depending on `depns.depcol` at the partial range `~1`. -/
def f7a : CollectionInfo :=
  { goodFields with dependencies := PyVal.dict [
      (PyVal.str "depns.depcol", PyVal.str "~1")] }

/-- A manifest whose dependencies field is null. -/
def fNullDeps : CollectionInfo := { goodFields with dependencies := PyVal.none }

/-- The good manifest with a given tag list. -/
def fieldsWithTags (ts : List PyVal) : CollectionInfo :=
  { goodFields with tags := PyVal.list ts }

/-- The default context with a given tag ceiling. -/
def ctxMax (m : Nat) : ValCtx := mkCtx m vocabMIT regEmpty

/-- A manifest whose version is the integer 5 (truthy but not a string). -/
def fVersionInt : CollectionInfo := { goodFields with version := PyVal.int 5 }

/-- A manifest whose license file is the integer 7 (not a string). -/
def fLicenseFileInt : CollectionInfo :=
  { goodFields with license_file := PyVal.int 7 }

/-- A manifest whose readme is the integer 7 (not a string). -/
def fReadmeInt : CollectionInfo := { goodFields with readme := PyVal.int 7 }

@[simp] theorem seqE_ok {α : Type} (b : Except Err α) : seqE (Except.ok ()) b = b := rfl

@[simp] theorem seqE_err {α : Type} (e : Err) (b : Except Err α) :
    seqE (Except.error e) b = Except.error e := rfl

theorem listOfStrLoop_ok (attrName : String) (ts : List PyVal)
    (h : ∀ t ∈ ts, t.isStr = true) :
    BaseCollectionInfo.listOfStrLoop attrName ts = Except.ok () := by
  induction ts with
  | nil => rfl
  | cons t rest ih =>
      have ht : t.isStr = true := h t (List.mem_cons_self t rest)
      simp only [BaseCollectionInfo.listOfStrLoop, ht, not_true_eq_false, if_false]
      exact ih (fun x hx => h x (List.mem_cons_of_mem t hx))

theorem tagLoop_ok (ts : List PyVal)
    (h : ∀ t ∈ ts, ∃ s, t = PyVal.str s ∧ tagMatches s = true) :
    BaseCollectionInfo.tagLoop tagMatches ts = Except.ok () := by
  induction ts with
  | nil => rfl
  | cons t rest ih =>
      obtain ⟨s, hts, hs⟩ := h t (List.mem_cons_self t rest)
      subst hts
      simp only [BaseCollectionInfo.tagLoop, hs, not_true_eq_false, if_false]
      exact ih (fun x hx => h x (List.mem_cons_of_mem _ hx))

/-- C1: the claim says every dependency entry is subjected to the checks and
a manifest containing one satisfiable and one violating dependency is
rejected regardless of entry order.  The code's `return` on a satisfied
version range exits the whole `_check_dependencies` loop, so the manifest
`f1` — whose first entry is satisfiable and whose second entry is a
self-dependency — is accepted, while the reversed order `f1rev` is rejected:
the outcome depends on entry order, and entries after the first are never
checked. -/
theorem C1_dependency_loop_stops_after_first_satisfied :
    (GalaxyCollectionInfo.init ctx1 f1).isOk = true ∧
    GalaxyCollectionInfo.init ctx1 f1rev =
      Except.error (invalidMeta "Cannot have self dependency") :=
  ⟨rfl, rfl⟩

/-- C2 counterexample: the claim says validation never crashes with an
unstructured exception, in particular on a non-string namespace.  A truthy
integer namespace passes `_check_required` and then crashes in `_check_name`
with the `TypeError` of `re.match` on a non-string — not a structured
validation-failure value. -/
theorem C2_counterexample_nonstring_namespace_crashes :
    GalaxyCollectionInfo.init ctx0 fNsInt =
      Except.error (Err.typeError "expected string or bytes-like object") ∧
    Err.isValidationFailure
      (Err.typeError "expected string or bytes-like object") = false :=
  ⟨rfl, rfl⟩

/-- C2 amended: validation can crash with unstructured exceptions rather
than surfacing a single structured validation-failure value.  Crash modes,
each proven at a concrete input: a truthy non-string namespace (likewise
name) raises `TypeError` from the regex match of `_check_name`; a truthy
non-string version raises `TypeError` from the regex match inside
`semantic_version.validate`; a non-string `license_file` or `readme` raises
the `TypeError` of the attrs `instance_of` validator; a dependency key
without a dot raises the unstructured unpacking `ValueError`; an envelope
without `collection_info` raises `TypeError` from `**None`.  A fully valid
manifest still validates. -/
theorem C2_amended_crash_modes :
    GalaxyCollectionInfo.init ctx0 fNsInt =
      Except.error (Err.typeError "expected string or bytes-like object") ∧
    GalaxyCollectionInfo.init ctx0 fVersionInt =
      Except.error (Err.typeError "expected string or bytes-like object") ∧
    GalaxyCollectionInfo.init ctx0 fLicenseFileInt =
      Except.error (Err.typeError "'license_file' must be <class 'str'>") ∧
    GalaxyCollectionInfo.init ctx0 fReadmeInt =
      Except.error (Err.typeError "'readme' must be <class 'str'>") ∧
    GalaxyCollectionInfo.init ctx0 fNoDotKey =
      Except.error (Err.valueError "not enough values to unpack (expected 2, got 1)") ∧
    Err.isValidationFailure
      (Err.valueError "not enough values to unpack (expected 2, got 1)") = false ∧
    CollectionArtifactManifest.parse ctx0 docNoColInfo =
      Except.error (Err.typeError "argument after ** must be a mapping, not NoneType") ∧
    (GalaxyCollectionInfo.init ctx0 goodFields).isOk = true :=
  ⟨rfl, rfl, rfl, rfl, rfl, rfl, rfl, rfl⟩

/-- C3 counterexample: the claim says a document without the
`collection_info` key fails with a `MalformedEnvelope` validation failure.
The code instead crashes with the `TypeError` of expanding `None` as
`**kwargs` — an unstructured exception, not a validation-failure value. -/
theorem C3_counterexample_missing_collection_info_typeerror :
    CollectionArtifactManifest.parse ctx0 docEmpty =
      Except.error (Err.typeError "argument after ** must be a mapping, not NoneType") ∧
    Err.isValidationFailure
      (Err.typeError "argument after ** must be a mapping, not NoneType") = false :=
  ⟨rfl, rfl⟩

/-- C3 amended: a document lacking `collection_info` does fail before any
field-level manifest rule runs — `meta.pop` defaults the sub-document to
`None` and `GalaxyCollectionInfo(**None)` raises immediately — but the
failure is an unstructured `TypeError`, not a `MalformedEnvelope`-style
validation value. -/
theorem C3_amended_missing_collection_info :
    CollectionArtifactManifest.parse ctx0 docNoColInfo =
      Except.error (Err.typeError "argument after ** must be a mapping, not NoneType") :=
  rfl

/-- C4 counterexample: the claim says a manifest with `license_file` set is
accepted even when its license list holds identifiers absent from the
vocabulary.  `_check_licenses` is an attrs field validator on `license` and
runs regardless of `license_file`, so the manifest is rejected. -/
theorem C4_counterexample_license_checked_despite_license_file :
    fBadLicenseWithFile.license_file = PyVal.str "LICENSE" ∧
    GalaxyCollectionInfo.init ctx0 fBadLicenseWithFile =
      Except.error (invalidMeta ("Expecting 'license' to be a list of valid SPDX " ++
        "license identifiers, instead found invalid license identifiers: " ++
        "'FakeLicense' in 'license' value ['FakeLicense']. " ++
        "For more info, visit https://spdx.org")) :=
  ⟨rfl, rfl⟩

/-- C4 amended: the license/license-file disjunction covers presence only:
an empty license list together with a set `license_file` is accepted (even
under an empty vocabulary, whose identifiers are never consulted for an
empty list), while a non-empty license list is always checked for validity,
and invalid identifiers are rejected even though `license_file` is set. -/
theorem C4_amended_presence_only_disjunction :
    (GalaxyCollectionInfo.init ctxNoVocab goodFields).isOk = true ∧
    GalaxyCollectionInfo.init ctx0 fBadLicenseWithFile2 =
      Except.error (invalidMeta ("Expecting 'license' to be a list of valid SPDX " ++
        "license identifiers, instead found invalid license identifiers: " ++
        "'NotSPDX' in 'license' value ['NotSPDX']. " ++
        "For more info, visit https://spdx.org")) :=
  ⟨rfl, rfl⟩

/-- C5 counterexample: the claim says a dependency key that does not split
into exactly two non-empty parts fails with a `MalformedDependencyKey`
validation failure naming the key.  A key with no dot instead raises the
unstructured tuple-unpacking `ValueError`, which does not carry the standard
validation prefix and does not name the key. -/
theorem C5_counterexample_unpack_error :
    GalaxyCollectionInfo.init ctx0 fPlainDep =
      Except.error (Err.valueError "not enough values to unpack (expected 2, got 1)") ∧
    Err.isValidationFailure
      (Err.valueError "not enough values to unpack (expected 2, got 1)") = false :=
  ⟨rfl, rfl⟩

/-- C5 amended: a dependency key with zero dots or two dots raises the
unstructured unpacking `ValueError`; a key with exactly one dot but an empty
namespace part is not rejected at the split at all — it proceeds to the
registry lookup and fails there as an unknown namespace. -/
theorem C5_amended_split_behaviour :
    GalaxyCollectionInfo.init ctx0 fPlainDep =
      Except.error (Err.valueError "not enough values to unpack (expected 2, got 1)") ∧
    GalaxyCollectionInfo.init ctx0 fTwoDotDep =
      Except.error (Err.valueError "too many values to unpack (expected 2)") ∧
    GalaxyCollectionInfo.init ctx0 fEmptyNsDep =
      Except.error (invalidMeta "Dependency namespace not in galaxy: .widgets") :=
  ⟨rfl, rfl, rfl⟩

/-- C7 counterexample: the claim says a published version string that fails
to parse is skipped, so a registry entry holding `banana` and `2.1.0` should
satisfy `>=2.0.0`.  In the code only `TypeError` is caught; `Version('banana')`
raises `ValueError`, which propagates as a crash instead of the claimed
acceptance. -/
theorem C7_counterexample_malformed_version_raises :
    GalaxyCollectionInfo.init ctx7 f7 =
      Except.error (Err.valueError "Invalid version string: 'banana'") ∧
    Err.isValidationFailure (Err.valueError "Invalid version string: 'banana'") = false :=
  ⟨rfl, rfl⟩

/-- C7 amended: during the enumeration only `TypeError` is swallowed (the
`Spec('~1').match` quirk quoted in the source comment), making such versions
count as non-matches and leading to the unsatisfiable-dependency failure;
a version string that fails to parse raises an uncaught `ValueError`, so a
registry holding only malformed versions crashes rather than failing with
the unsatisfiable-dependency message. -/
theorem C7_amended_only_typeerror_skipped :
    GalaxyCollectionInfo.init ctx7a f7a =
      Except.error (invalidMeta
        "Dependency found in galaxy but no matching version found: depns.depcol ~1") ∧
    GalaxyCollectionInfo.init ctx7b f7 =
      Except.error (Err.valueError "Invalid version string: 'banana'") :=
  ⟨rfl, rfl⟩

/-- C8 counterexample: the claim says a manifest whose dependencies field is
null is rejected rather than accepted with an empty mapping; the converter
`convert_none_to_empty_dict` silently replaces `None` with `{}` and the
manifest is accepted. -/
theorem C8_counterexample_null_dependencies_accepted :
    (GalaxyCollectionInfo.init ctx0 fNullDeps).isOk = true :=
  rfl

/-- C8 amended: a null dependencies field is silently coerced to the empty
mapping by the attrs converter and validation succeeds, returning the
manifest with an empty dependencies dict — the one default-substitution in
the pipeline. -/
theorem C8_amended_none_coerced_to_empty_dict :
    convert_none_to_empty_dict PyVal.none = PyVal.dict [] ∧
    GalaxyCollectionInfo.init ctx0 fNullDeps =
      Except.ok { fNullDeps with dependencies := PyVal.dict [] } :=
  ⟨rfl, rfl⟩

/-- C10: in `_is_valid_license_id`, a vocabulary entry that is present but
falsy (such as an empty mapping) makes the identifier valid and its
deprecated flag is never consulted (the result is the same whichever value
the flag has); the deprecated flag invalidates the identifier only when the
stored entry is truthy.  Consequently `_check_licenses` accepts a license
list whose identifier maps to a falsy entry. -/
theorem C10_falsy_vocabulary_entry_valid :
    BaseCollectionInfo._is_valid_license_id [("X", ⟨false, false⟩)] (PyVal.str "X") = true ∧
    BaseCollectionInfo._is_valid_license_id [("X", ⟨false, true⟩)] (PyVal.str "X") = true ∧
    BaseCollectionInfo._is_valid_license_id [("Y", ⟨true, true⟩)] (PyVal.str "Y") = false ∧
    BaseCollectionInfo._check_licenses [("X", ⟨false, true⟩)] (PyVal.list [PyVal.str "X"]) =
      Except.ok () :=
  ⟨rfl, rfl, rfl, rfl⟩

/-- C6 counterexample: the claim says that whenever a required field is
missing and another field has a format violation, the reported failure is
the missing required field.  With `namespace = "foo bar"` (format violation)
and `version` missing, the code reports the namespace format failure, not
`'version' is required`: attrs runs validators field by field, not phase by
phase. -/
theorem C6_counterexample_field_order :
    GalaxyCollectionInfo.init ctx0 fC6 =
      Except.error (invalidMeta "'namespace' has invalid format: foo bar") ∧
    invalidMeta "'namespace' has invalid format: foo bar" ≠
      invalidMeta "'version' is required" :=
  ⟨rfl, by decide⟩

/-- C6 amended: validators run per field in declaration order (namespace,
name, version, ...), with required-ness checked before format only within
each field; hence a missing required version is reported first exactly when
every validator of the earlier-declared namespace and name fields passes. -/
theorem C6_amended_per_field_order (C : ValCtx) (f : CollectionInfo)
    (h1 : BaseCollectionInfo._check_required "namespace" f.namespace_ = Except.ok ())
    (h2 : BaseCollectionInfo._check_name C.NAME_REGEXP "namespace" f.namespace_ = Except.ok ())
    (h3 : BaseCollectionInfo._check_required "name" f.name = Except.ok ())
    (h4 : BaseCollectionInfo._check_name C.NAME_REGEXP "name" f.name = Except.ok ())
    (h5 : f.version.truthy = false) :
    GalaxyCollectionInfo.init C f =
      Except.error (invalidMeta "'version' is required") := by
  have hv : BaseCollectionInfo._check_required "version" f.version =
      Except.error (invalidMeta "'version' is required") := by
    simp [BaseCollectionInfo._check_required, h5, value_error]
  simp only [GalaxyCollectionInfo.init, BaseCollectionInfo.runFieldValidators,
    h1, h2, h3, h4, hv, seqE_ok, seqE_err]

/-- C6 witness: the amended per-field-order theorem applied to the concrete
manifest `fC6w` (valid namespace and name, missing version). -/
theorem C6_amended_per_field_order_witness :
    (BaseCollectionInfo._check_required "namespace" fC6w.namespace_ = Except.ok ()) ∧
    (BaseCollectionInfo._check_name ctx0.NAME_REGEXP "namespace" fC6w.namespace_ = Except.ok ()) ∧
    (BaseCollectionInfo._check_required "name" fC6w.name = Except.ok ()) ∧
    (BaseCollectionInfo._check_name ctx0.NAME_REGEXP "name" fC6w.name = Except.ok ()) ∧
    (fC6w.version.truthy = false) ∧
    GalaxyCollectionInfo.init ctx0 fC6w =
      Except.error (invalidMeta "'version' is required") :=
  ⟨rfl, rfl, rfl, rfl, rfl,
    C6_amended_per_field_order ctx0 fC6w rfl rfl rfl rfl rfl⟩

/-- C9: under galaxy validation of the otherwise-valid manifest, a tag list
(of well-formed string tags) whose length strictly exceeds the configured
maximum count fails with the too-many-tags validation failure, and a tag
list whose length equals the maximum succeeds. -/
theorem C9_tags_count_boundary (m : Nat) (ts : List PyVal)
    (hstr : ∀ t ∈ ts, ∃ s, t = PyVal.str s ∧ tagMatches s = true) :
    (ts.length > m →
      GalaxyCollectionInfo.init (ctxMax m) (fieldsWithTags ts) =
        Except.error (invalidMeta
          ("Expecting no more than " ++ toString m ++ " tags in metadata"))) ∧
    (ts.length = m →
      (GalaxyCollectionInfo.init (ctxMax m) (fieldsWithTags ts)).isOk = true) := by
  have a10 : BaseCollectionInfo._check_list_of_str "tags" (fieldsWithTags ts).tags =
      Except.ok () := by
    show BaseCollectionInfo.listOfStrLoop "tags" ts = Except.ok ()
    refine listOfStrLoop_ok "tags" ts ?_
    intro t ht
    obtain ⟨s, hts, _⟩ := hstr t ht
    subst hts
    rfl
  have a11 : BaseCollectionInfo._check_tags (ctxMax m).TAG_REGEXP (fieldsWithTags ts).tags =
      Except.ok () := by
    show BaseCollectionInfo.tagLoop tagMatches ts = Except.ok ()
    exact tagLoop_ok ts hstr
  have a1 : BaseCollectionInfo._check_required "namespace" (fieldsWithTags ts).namespace_ =
      Except.ok () := rfl
  have a2 : BaseCollectionInfo._check_name (ctxMax m).NAME_REGEXP "namespace"
      (fieldsWithTags ts).namespace_ = Except.ok () := rfl
  have a3 : BaseCollectionInfo._check_required "name" (fieldsWithTags ts).name =
      Except.ok () := rfl
  have a4 : BaseCollectionInfo._check_name (ctxMax m).NAME_REGEXP "name"
      (fieldsWithTags ts).name = Except.ok () := rfl
  have a5 : BaseCollectionInfo._check_required "version" (fieldsWithTags ts).version =
      Except.ok () := rfl
  have a6 : BaseCollectionInfo._check_version_format (ctxMax m).oracle
      (fieldsWithTags ts).version = Except.ok () := rfl
  have a7 : BaseCollectionInfo._check_list_of_str "license" (fieldsWithTags ts).license =
      Except.ok () := rfl
  have a8 : BaseCollectionInfo._check_licenses (ctxMax m).spdx (fieldsWithTags ts).license =
      Except.ok () := rfl
  have a9 : BaseCollectionInfo._check_list_of_str "authors" (fieldsWithTags ts).authors =
      Except.ok () := rfl
  have a12 : checkOptionalInstanceOfStr "license_file" (fieldsWithTags ts).license_file =
      Except.ok () := rfl
  have a13 : checkOptionalInstanceOfStr "readme" (fieldsWithTags ts).readme =
      Except.ok () := rfl
  have hconv : convert_none_to_empty_dict (fieldsWithTags ts).dependencies =
      PyVal.dict [] := rfl
  have a14 : BaseCollectionInfo._check_dependencies_type (PyVal.dict []) =
      Except.ok () := rfl
  have b1 : BaseCollectionInfo._check_license_or_license_file (fieldsWithTags ts).license
      (fieldsWithTags ts).license_file = Except.ok () := rfl
  have b2 : GalaxyCollectionInfo._check_required (fieldsWithTags ts) "readme" =
      Except.ok () := rfl
  have b3 : GalaxyCollectionInfo._check_required (fieldsWithTags ts) "authors" =
      Except.ok () := rfl
  have b4 : GalaxyCollectionInfo._check_dependencies (ctxMax m) (fieldsWithTags ts)
      (PyVal.dict []) = Except.ok () := rfl
  have b6 : GalaxyCollectionInfo._check_non_null_str (fieldsWithTags ts) "description" =
      Except.ok () := rfl
  have b7 : GalaxyCollectionInfo._check_non_null_str (fieldsWithTags ts) "repository" =
      Except.ok () := rfl
  have b8 : GalaxyCollectionInfo._check_non_null_str (fieldsWithTags ts) "documentation" =
      Except.ok () := rfl
  have b9 : GalaxyCollectionInfo._check_non_null_str (fieldsWithTags ts) "homepage" =
      Except.ok () := rfl
  have b10 : GalaxyCollectionInfo._check_non_null_str (fieldsWithTags ts) "issues" =
      Except.ok () := rfl
  have key : GalaxyCollectionInfo.init (ctxMax m) (fieldsWithTags ts) =
      seqE (GalaxyCollectionInfo._check_tags_count (ctxMax m) (fieldsWithTags ts))
        (Except.ok { fieldsWithTags ts with dependencies := PyVal.dict [] }) := by
    simp only [GalaxyCollectionInfo.init, BaseCollectionInfo.runFieldValidators, hconv,
      a1, a2, a3, a4, a5, a6, a7, a8, a9, a10, a11, a12, a13, a14,
      b1, b2, b3, b4, b6, b7, b8, b9, b10, seqE_ok]
  have hcount : GalaxyCollectionInfo._check_tags_count (ctxMax m) (fieldsWithTags ts) =
      (if ts.length > m then
        (value_error ("Expecting no more than " ++ toString m ++ " tags in metadata") :
          Except Err Unit)
      else Except.ok ()) := rfl
  constructor
  · intro hgt
    rw [key, hcount, if_pos hgt]
    rfl
  · intro heq
    have : ¬ts.length > m := by omega
    rw [key, hcount, if_neg this]
    rfl

/-- C9 witness: the boundary theorem applied to one concrete string tag at
ceilings 1 (length equals the maximum: accepted) and 0 (length exceeds the
maximum: rejected). -/
theorem C9_tags_count_boundary_witness :
    (∀ t ∈ [PyVal.str "web"], ∃ s, t = PyVal.str s ∧ tagMatches s = true) ∧
    (GalaxyCollectionInfo.init (ctxMax 1) (fieldsWithTags [PyVal.str "web"])).isOk = true ∧
    GalaxyCollectionInfo.init (ctxMax 0) (fieldsWithTags [PyVal.str "web"]) =
      Except.error (invalidMeta "Expecting no more than 0 tags in metadata") := by
  have h : ∀ t ∈ [PyVal.str "web"], ∃ s, t = PyVal.str s ∧ tagMatches s = true := by
    intro t ht
    rw [List.mem_singleton] at ht
    exact ⟨"web", ht, rfl⟩
  refine ⟨h, ?_, ?_⟩
  · exact (C9_tags_count_boundary 1 [PyVal.str "web"] h).2 rfl
  · exact (C9_tags_count_boundary 0 [PyVal.str "web"] h).1 (by decide)
